import Mathlib

/-!
Verification of the glgpu Vulkan render backend's resource and lifecycle
management subsystem against its natural-language specification.

The definitions below are a shallow embedding of the C++ sources
(src/src/platform/vulkan/vk_backend.cpp, the swapchain translation unit and
the backend header).  Native Vulkan entry points are modelled by passing the
values they would produce (surface capabilities, created handles, result
codes) as explicit inputs; machine integers are modelled as Nat with the
relevant bounds stated where they matter.
-/

namespace gl

/-! ## Deletion queue (claim C6) -/

/-- Modelled from the spec: the file glgpu/deletion_queue.h is not under
src/ (only its callers in vk_backend.cpp are).  Per spec section 4.5,
"push(action) appends a cleanup action; flush() executes all actions in
reverse order then empties the queue."  Cleanup actions are represented by
abstract labels; flush returns the sequence of labels it executed, in
execution order, together with the emptied queue. -/
structure DeletionQueue (A : Type) where
  deletors : List A

/-- push_function appends one cleanup action to the queue. -/
def push_function {A : Type} (q : DeletionQueue A) (a : A) : DeletionQueue A :=
  ⟨q.deletors ++ [a]⟩

/-- flush executes every queued action in reverse-of-registration order and
empties the queue; the first component is the executed sequence. -/
def flush {A : Type} (q : DeletionQueue A) : List A × DeletionQueue A :=
  (q.deletors.reverse, ⟨[]⟩)

/-- C6: pushing a, b, c in that order and flushing executes exactly
[c, b, a] and empties the queue, so a second flush executes nothing. -/
theorem deletion_queue_flush_reverse_exactly_once (a b c : Nat) :
    (flush (push_function (push_function (push_function ⟨[]⟩ a) b) c)).1 = [c, b, a] ∧
    (flush (flush (push_function (push_function (push_function ⟨[]⟩ a) b) c)).2).1 = ([] : List Nat) ∧
    (flush (flush (push_function (push_function (push_function ⟨[]⟩ a) b) c)).2).2.deletors = ([] : List Nat) := by
  simp [flush, push_function]

/-! ## Backend singleton guard (claim C8) -/

/-- Process-global state of the backend guard: the static flag
s_initialized from vk_backend.cpp together with the number of live backend
instances.  Modelled from the spec for the part not under src/: GL_ASSERT
(glgpu/assert.h is absent) is fatal per spec section 7, "fatal errors
terminate the process", so an aborted construction exposes nothing. -/
structure BackendGlobalState where
  s_initd : Bool
  live_backends : Nat
deriving DecidableEq

/-- Outcome of running the VulkanRenderBackend constructor. -/
inductive ConstructResult where
  | ok : ConstructResult
  | aborted : ConstructResult
deriving DecidableEq

/-- The constructor: if s_initialized is already set it asserts (fatally)
before touching any state; otherwise it initializes, sets the flag and
exposes one more live instance (vk_backend.cpp lines 50-123). -/
def construct_backend (s : BackendGlobalState) : ConstructResult × BackendGlobalState :=
  if s.s_initd then (.aborted, s)
  else (.ok, ⟨true, s.live_backends + 1⟩)

/-- The destructor flushes the deletion queue and clears s_initialized
(vk_backend.cpp lines 316-319).  A destructor only ever runs on a live
instance, so it is a no-op when none is live. -/
def destruct_backend (s : BackendGlobalState) : BackendGlobalState :=
  if s.live_backends = 0 then s else ⟨false, s.live_backends - 1⟩

/-- A construct/destruct call. -/
inductive BackendOp where
  | construct : BackendOp
  | destruct : BackendOp

/-- Run a sequence of constructor/destructor calls from the process start
state (flag clear, no live instance). -/
def run_backend_ops (ops : List BackendOp) : BackendGlobalState :=
  ops.foldl
    (fun s op =>
      match op with
      | .construct => (construct_backend s).2
      | .destruct => destruct_backend s)
    ⟨false, 0⟩

/-- Helper invariant: the static flag tracks exactly whether one instance
is live. -/
def backend_inv (s : BackendGlobalState) : Prop :=
  s.live_backends = if s.s_initd then 1 else 0

theorem backend_inv_step (s : BackendGlobalState) (op : BackendOp) (h : backend_inv s) :
    backend_inv
      (match op with
       | .construct => (construct_backend s).2
       | .destruct => destruct_backend s) := by
  cases op with
  | construct =>
    unfold backend_inv at h
    unfold backend_inv construct_backend
    by_cases hi : s.s_initd <;> simp [hi] at h ⊢ <;> omega
  | destruct =>
    unfold backend_inv at h
    unfold backend_inv destruct_backend
    by_cases hi : s.s_initd <;> simp [hi] at h ⊢ <;> simp [h, hi]

theorem backend_inv_run (ops : List BackendOp) : backend_inv (run_backend_ops ops) := by
  have general :
      ∀ (l : List BackendOp) (s : BackendGlobalState), backend_inv s →
        backend_inv
          (l.foldl
            (fun s op =>
              match op with
              | .construct => (construct_backend s).2
              | .destruct => destruct_backend s)
            s) := by
    intro l
    induction l with
    | nil => intro s hs; exact hs
    | cons op rest ih =>
      intro s hs
      exact ih _ (backend_inv_step s op hs)
  have h0 : backend_inv ⟨false, 0⟩ := by unfold backend_inv; simp
  exact general ops _ h0

/-- C8: after any sequence of constructor and destructor calls at most one
backend instance is live; attempting to construct a second backend while
one is live aborts startup and leaves the global state (hence the set of
exposed instances) unchanged; constructing when none is live succeeds; and
destroying the live instance makes a subsequent construction succeed. -/
theorem backend_singleton_invariant (ops : List BackendOp) :
    (run_backend_ops ops).live_backends ≤ 1 ∧
    ((run_backend_ops ops).s_initd = true →
      (construct_backend (run_backend_ops ops)).1 = .aborted ∧
      (construct_backend (run_backend_ops ops)).2 = run_backend_ops ops) ∧
    ((run_backend_ops ops).s_initd = false →
      (construct_backend (run_backend_ops ops)).1 = .ok) ∧
    ((run_backend_ops ops).s_initd = true →
      (construct_backend (destruct_backend (run_backend_ops ops))).1 = .ok) := by
  have hinv := backend_inv_run ops
  unfold backend_inv at hinv
  refine ⟨?_, ?_, ?_, ?_⟩
  · by_cases hi : (run_backend_ops ops).s_initd <;> simp [hi] at hinv <;> omega
  · intro h; simp [construct_backend, h]
  · intro h; simp [construct_backend, h]
  · intro h
    simp [h] at hinv
    simp [destruct_backend, construct_backend, hinv]

/-- Witness for C8 at a concrete run: constructing once from process start
makes the flag live, and a second construction aborts. -/
theorem backend_singleton_invariant_witness :
    (construct_backend (run_backend_ops [BackendOp.construct])).1 = ConstructResult.aborted :=
  ((backend_singleton_invariant [BackendOp.construct]).2.1 (by decide)).1

/-! ## Descriptor set pool key ordering (claim C9)

DescriptorSetPoolKey (vk_backend.h) holds
uint16_t uniform_type[ShaderUniformType::MAX] with ShaderUniformType::MAX = 6,
and its operator< is memcmp(uniform_type, p_other.uniform_type, sizeof) < 0.
A key is modelled as its count vector, a List Nat of length 6 with entries
below 2^16; memcmp compares the raw bytes, little-endian on the supported
targets (x86/x86-64 Windows and Linux). -/

/-- Little-endian byte serialization of one uint16_t count. -/
def uint16_le_bytes (v : Nat) : List Nat :=
  [v % 256, v / 256 % 256]

/-- The byte image of the whole uniform_type array, as memcmp sees it. -/
def key_bytes (k : List Nat) : List Nat :=
  (k.map uint16_le_bytes).flatten

/-- memcmp(a, b, n) < 0 on two equal-length byte arrays: bytewise
lexicographic comparison as unsigned chars. -/
def memcmp_lt : List Nat → List Nat → Bool
  | [], _ => false
  | _ :: _, [] => false
  | a :: as, b :: bs =>
    if a < b then true else if b < a then false else memcmp_lt as bs

/-- DescriptorSetPoolKey::operator<: memcmp over the byte image of the
count vector. -/
def pool_key_lt (a b : List Nat) : Bool :=
  memcmp_lt (key_bytes a) (key_bytes b)

/-- Formalisation of the spec's words for comparison: lexicographic order
over the per-binding-type count vector itself (numeric, not bytewise). -/
def spec_lex_lt : List Nat → List Nat → Bool
  | [], [] => false
  | [], _ :: _ => true
  | _ :: _, [] => false
  | a :: as, b :: bs =>
    if a < b then true else if b < a then false else spec_lex_lt as bs

theorem memcmp_lt_irrefl (a : List Nat) : memcmp_lt a a = false := by
  induction a with
  | nil => rfl
  | cons x xs ih => simp [memcmp_lt, ih]

theorem memcmp_lt_asymm : ∀ (a b : List Nat), memcmp_lt a b = true → memcmp_lt b a = false
  | [], _, h => by simp [memcmp_lt] at h
  | _ :: _, [], h => by simp [memcmp_lt] at h
  | a :: as, b :: bs, h => by
    unfold memcmp_lt at h ⊢
    by_cases h1 : a < b
    · have h2 : ¬ b < a := by omega
      simp [h1, h2]
    · by_cases h2 : b < a
      · simp [h1, h2] at h
      · simp [h1, h2] at h ⊢
        exact memcmp_lt_asymm as bs h

theorem memcmp_eq_of_not_lt : ∀ (a b : List Nat), a.length = b.length →
    memcmp_lt a b = false → memcmp_lt b a = false → a = b
  | [], [], _, _, _ => rfl
  | [], _ :: _, h, _, _ => by simp at h
  | _ :: _, [], h, _, _ => by simp at h
  | a :: as, b :: bs, hlen, hab, hba => by
    unfold memcmp_lt at hab hba
    by_cases h1 : a < b
    · simp [h1] at hab
    · by_cases h2 : b < a
      · simp [h1, h2] at hba
      · have hEq : a = b := by omega
        subst hEq
        simp [h1, h2] at hab hba
        have := memcmp_eq_of_not_lt as bs (by simpa using hlen) hab hba
        simp [this]

theorem key_bytes_inj : ∀ (a b : List Nat), a.length = b.length →
    (∀ x ∈ a, x < 65536) → (∀ x ∈ b, x < 65536) →
    key_bytes a = key_bytes b → a = b
  | [], [], _, _, _, _ => rfl
  | [], _ :: _, h, _, _, _ => by simp at h
  | _ :: _, [], h, _, _, _ => by simp at h
  | a :: as, b :: bs, hlen, ha, hb, heq => by
    simp [key_bytes, uint16_le_bytes] at heq
    obtain ⟨h1, h2, h3⟩ := heq
    have ha0 : a < 65536 := ha a (by simp)
    have hb0 : b < 65536 := hb b (by simp)
    have hab : a = b := by omega
    have htail : as = bs :=
      key_bytes_inj as bs (by simpa using hlen)
        (fun x hx => ha x (by simp [hx])) (fun x hx => hb x (by simp [hx]))
        (by simpa [key_bytes] using h3)
    simp [hab, htail]

theorem key_bytes_length (a : List Nat) : (key_bytes a).length = 2 * a.length := by
  induction a with
  | nil => rfl
  | cons x xs ih =>
    simp [key_bytes, uint16_le_bytes] at ih ⊢
    omega

theorem memcmp_bytes_eq_spec_lex : ∀ (a b : List Nat), a.length = b.length →
    (∀ x ∈ a, x < 256) → (∀ x ∈ b, x < 256) →
    memcmp_lt (key_bytes a) (key_bytes b) = spec_lex_lt a b
  | [], [], _, _, _ => rfl
  | [], _ :: _, h, _, _ => by simp at h
  | _ :: _, [], h, _, _ => by simp at h
  | a :: as, b :: bs, hlen, ha, hb => by
    have ha0 : a < 256 := ha a (by simp)
    have hb0 : b < 256 := hb b (by simp)
    have hka : key_bytes (a :: as) = a :: 0 :: key_bytes as := by
      simp [key_bytes, uint16_le_bytes, Nat.mod_eq_of_lt ha0, Nat.div_eq_of_lt ha0]
    have hkb : key_bytes (b :: bs) = b :: 0 :: key_bytes bs := by
      simp [key_bytes, uint16_le_bytes, Nat.mod_eq_of_lt hb0, Nat.div_eq_of_lt hb0]
    have ih := memcmp_bytes_eq_spec_lex as bs (by simpa using hlen)
      (fun x hx => ha x (by simp [hx])) (fun x hx => hb x (by simp [hx]))
    rw [hka, hkb]
    unfold memcmp_lt spec_lex_lt
    by_cases h1 : a < b
    · simp [h1]
    · by_cases h2 : b < a
      · simp [h1, h2]
      · simp [h1, h2, memcmp_lt, ih]

/-- Counterexample for C9 as stated: with counts [256,0,0,0,0,0] against
[1,0,0,0,0,0], operator< (little-endian memcmp) puts the first key below
the second, but numeric lexicographic order over the count vectors does
not: the orders do not coincide once a count reaches 256. -/
theorem pool_key_lt_counterexample :
    pool_key_lt [256, 0, 0, 0, 0, 0] [1, 0, 0, 0, 0, 0] = true ∧
    spec_lex_lt [256, 0, 0, 0, 0, 0] [1, 0, 0, 0, 0, 0] = false := by
  constructor <;> rfl

/-- C9 amended: operator< on pool capacity keys (six uint16 counts) is a
total, deterministic strict order — for all keys exactly one of a < b,
b < a, a = b holds — and it equals lexicographic order over the count
vector whenever every count is below 256 (in general it is lexicographic
over the little-endian byte image, not over the counts). -/
theorem pool_key_lt_trichotomy_amended (a b : List Nat)
    (ha6 : a.length = 6) (hb6 : b.length = 6)
    (ha : ∀ x ∈ a, x < 65536) (hb : ∀ x ∈ b, x < 65536) :
    ((pool_key_lt a b = true ∧ pool_key_lt b a = false ∧ a ≠ b) ∨
     (pool_key_lt a b = false ∧ pool_key_lt b a = true ∧ a ≠ b) ∨
     (pool_key_lt a b = false ∧ pool_key_lt b a = false ∧ a = b)) ∧
    ((∀ x ∈ a, x < 256) → (∀ x ∈ b, x < 256) → pool_key_lt a b = spec_lex_lt a b) := by
  constructor
  · by_cases hab : pool_key_lt a b = true
    · left
      refine ⟨hab, memcmp_lt_asymm _ _ hab, ?_⟩
      intro hEq
      rw [hEq] at hab
      simp [pool_key_lt, memcmp_lt_irrefl] at hab
    · have hab' : pool_key_lt a b = false := by
        cases hPk : pool_key_lt a b
        · rfl
        · exact absurd hPk hab
      by_cases hba : pool_key_lt b a = true
      · right; left
        refine ⟨hab', hba, ?_⟩
        intro hEq
        rw [hEq] at hba
        simp [pool_key_lt, memcmp_lt_irrefl] at hba
      · have hba' : pool_key_lt b a = false := by
          cases hPk : pool_key_lt b a
          · rfl
          · exact absurd hPk hba
        right; right
        refine ⟨hab', hba', ?_⟩
        have hlenbytes : (key_bytes a).length = (key_bytes b).length := by
          rw [key_bytes_length, key_bytes_length, ha6, hb6]
        have hbyteq : key_bytes a = key_bytes b :=
          memcmp_eq_of_not_lt _ _ hlenbytes hab' hba'
        exact key_bytes_inj a b (by rw [ha6, hb6]) ha hb hbyteq
  · intro ha' hb'
    exact memcmp_bytes_eq_spec_lex a b (by rw [ha6, hb6]) ha' hb'

/-- Witness for C9 amended at concrete keys: the order is decided and
coincides with the count-vector lexicographic order when counts are
small. -/
theorem pool_key_lt_trichotomy_amended_witness :
    pool_key_lt [1, 2, 3, 4, 5, 6] [1, 2, 3, 4, 5, 7] =
      spec_lex_lt [1, 2, 3, 4, 5, 6] [1, 2, 3, 4, 5, 7] :=
  (pool_key_lt_trichotomy_amended [1, 2, 3, 4, 5, 6] [1, 2, 3, 4, 5, 7]
    (by decide) (by decide) (by decide) (by decide)).2 (by decide) (by decide)

/-! ## Swapchain data model (vk_backend.h / glgpu/vec.h) -/

/-- Vec2u from glgpu/vec.h; the source asserts
sizeof(Vec2u) == sizeof(VkExtent2D) and memcpys between the two, so the
same type models VkExtent2D (x = width, y = height). -/
structure Vec2u where
  x : Nat
  y : Nat
deriving DecidableEq

/-- VkFormat, restricted to the constructors the swapchain code inspects;
every other format value is carried by the "other" constructor. -/
inductive VkFormat where
  | undefined : VkFormat
  | r8g8b8a8_unorm : VkFormat
  | b8g8r8a8_unorm : VkFormat
  | other : Nat → VkFormat
deriving DecidableEq

/-- VkColorSpaceKHR, restricted likewise. -/
inductive VkColorSpace where
  | srgb_nonlinear : VkColorSpace
  | other : Nat → VkColorSpace
deriving DecidableEq

/-- VkSurfaceFormatKHR. -/
structure SurfaceFormat where
  format : VkFormat
  colorSpace : VkColorSpace
deriving DecidableEq

/-- VkPresentModeKHR, the four core modes. -/
inductive PresentMode where
  | immediate : PresentMode
  | mailbox : PresentMode
  | fifo : PresentMode
  | fifo_relaxed : PresentMode
deriving DecidableEq

/-- VulkanImage (vk_backend.h), restricted to the fields the swapchain
paths read or write; the allocation and mip_levels fields are never
touched by swapchain code and are omitted.  Native handles are Nats with
0 for VK_NULL_HANDLE. -/
structure VulkanImage where
  vk_image : Nat
  vk_image_view : Nat
  image_extent : Vec2u
  image_format : VkFormat
deriving DecidableEq

/-- VulkanSwapchain (vk_backend.h).  The field initd models the source's
bool initialized flag. -/
structure VulkanSwapchain where
  vk_swapchain : Nat
  format : VkFormat
  color_space : VkColorSpace
  extent : Vec2u
  images : List VulkanImage
  image_index : Nat
  initd : Bool
deriving DecidableEq

/-! ## Image acquisition (claims C7 and C10) -/

/-- The VkResult values swapchain_acquire_image distinguishes, plus two
representative generic failures. -/
inductive VkResult where
  | success : VkResult
  | suboptimal_khr : VkResult
  | error_out_of_date_khr : VkResult
  | error_device_lost : VkResult
  | error_surface_lost_khr : VkResult
deriving DecidableEq

/-- SwapchainAcquireError from glgpu/backend.h: the distinguished
needs-resize error versus generic failure. -/
inductive SwapchainAcquireError where
  | OUT_OF_DATE : SwapchainAcquireError
  | ERROR : SwapchainAcquireError
deriving DecidableEq

/-- Result type from glgpu/result.h (that header is not under src/; this
is the evident sum the callers rely on: an ok value or an error). -/
inductive Result (T E : Type) where
  | ok : T → Result T E
  | err : E → Result T E
deriving DecidableEq

/-- Placeholder image for out-of-range indexing; the native API guarantees
the acquired index is within the image array, so it is never produced. -/
def default_image : VulkanImage :=
  ⟨0, 0, ⟨0, 0⟩, .undefined⟩

/-- VulkanRenderBackend::swapchain_acquire_image.  The native
vkAcquireNextImageKHR call is modelled by its outputs: res is the VkResult
it returns and p_native_index the image index it stores into
swapchain->image_index when it acquires an image (VK_SUCCESS or
VK_SUBOPTIMAL_KHR).  o_image_index models the caller's output location:
none for a null pointer, some v for a location currently holding v.  The
result triple is (returned Result, updated swapchain, content of the
output location after the call). -/
def swapchain_acquire_image (res : VkResult) (p_native_index : Nat)
    (sw : VulkanSwapchain) (o_image_index : Option Nat) :
    Result VulkanImage SwapchainAcquireError × VulkanSwapchain × Option Nat :=
  let sw1 :=
    if res = .success ∨ res = .suboptimal_khr then
      { sw with image_index := p_native_index }
    else sw
  if res = .error_out_of_date_khr ∨ res = .suboptimal_khr then
    (.err .OUT_OF_DATE, sw1, o_image_index)
  else if res ≠ .success then
    (.err .ERROR, sw1, o_image_index)
  else
    let o1 : Option Nat :=
      match o_image_index with
      | some _ => some sw1.image_index
      | none => none
    (.ok (sw1.images.getD sw1.image_index default_image), sw1, o1)

/-- C7: acquiring reports out-of-date/suboptimal as the distinguished
OUT_OF_DATE error with no image; any other native failure becomes the
generic ERROR, which is distinct from OUT_OF_DATE; and on success the call
returns the image at the acquired index and records that index. -/
theorem swapchain_acquire_image_result_paths (res : VkResult) (idx : Nat)
    (sw : VulkanSwapchain) (o : Option Nat) :
    ((res = .error_out_of_date_khr ∨ res = .suboptimal_khr) →
      (swapchain_acquire_image res idx sw o).1 = .err .OUT_OF_DATE) ∧
    ((res ≠ .success ∧ res ≠ .error_out_of_date_khr ∧ res ≠ .suboptimal_khr) →
      (swapchain_acquire_image res idx sw o).1 = .err .ERROR) ∧
    (SwapchainAcquireError.ERROR ≠ SwapchainAcquireError.OUT_OF_DATE) ∧
    (res = .success →
      (swapchain_acquire_image res idx sw o).1 = .ok (sw.images.getD idx default_image) ∧
      (swapchain_acquire_image res idx sw o).2.1.image_index = idx) := by
  cases res <;> simp [swapchain_acquire_image]

/-- Witness for C7 at concrete inputs: a device-lost acquire on a live
swapchain yields the generic error. -/
theorem swapchain_acquire_image_result_paths_witness :
    (swapchain_acquire_image VkResult.error_device_lost 0
      ⟨1, .r8g8b8a8_unorm, .srgb_nonlinear, ⟨800, 600⟩, [], 0, true⟩ none).1 =
      Result.err SwapchainAcquireError.ERROR :=
  (swapchain_acquire_image_result_paths VkResult.error_device_lost 0
    ⟨1, .r8g8b8a8_unorm, .srgb_nonlinear, ⟨800, 600⟩, [], 0, true⟩ none).2.1
    ⟨by decide, by decide, by decide⟩

/-- C10: the caller-supplied output location is written only on success
(when the pointer is non-null it then holds the acquired index); on any
error path its content is left unchanged. -/
theorem swapchain_acquire_image_out_index (res : VkResult) (idx : Nat)
    (sw : VulkanSwapchain) (o : Option Nat) :
    (∀ e : SwapchainAcquireError,
      (swapchain_acquire_image res idx sw o).1 = .err e →
      (swapchain_acquire_image res idx sw o).2.2 = o) ∧
    (res = .success → o.isSome = true →
      (swapchain_acquire_image res idx sw o).2.2 = some idx) ∧
    (res = .success → o = none →
      (swapchain_acquire_image res idx sw o).2.2 = none) := by
  cases res <;> cases o <;> simp [swapchain_acquire_image]

/-- Witness for C10 at concrete inputs: an out-of-date acquire leaves the
caller's location holding its previous value 3. -/
theorem swapchain_acquire_image_out_index_witness :
    (swapchain_acquire_image VkResult.error_out_of_date_khr 5
      ⟨1, .r8g8b8a8_unorm, .srgb_nonlinear, ⟨800, 600⟩, [], 0, true⟩ (some 3)).2.2 =
      some 3 :=
  (swapchain_acquire_image_out_index VkResult.error_out_of_date_khr 5
    ⟨1, .r8g8b8a8_unorm, .srgb_nonlinear, ⟨800, 600⟩, [], 0, true⟩ (some 3)).1
    SwapchainAcquireError.OUT_OF_DATE (by decide)

/-! ## Swapchain resize (claims C3, C4, C5)

VulkanRenderBackend::swapchain_resize, success path: native calls are
modelled by the values they produce (queried surface capabilities, formats
and present modes, the created swapchain handle, the retrieved raw images
and the created view handles), and the native side effects are recorded in
an event trace in program order. -/

/-- UINT32_MAX, the sentinel in VkSurfaceCapabilitiesKHR.currentExtent. -/
def UINT32_MAX : Nat := 4294967295

/-- The fields of VkSurfaceCapabilitiesKHR the resize path reads. -/
structure VkSurfaceCapabilitiesKHR where
  currentExtent : Vec2u
  minImageExtent : Vec2u
  maxImageExtent : Vec2u
  minImageCount : Nat
  maxImageCount : Nat
deriving DecidableEq

/-- std::clamp(v, lo, hi). -/
def cpp_clamp (v lo hi : Nat) : Nat :=
  if v < lo then lo else if hi < v then hi else v

/-- Extent determination in swapchain_resize: the surface-pinned
currentExtent when its width differs from UINT32_MAX, otherwise the
requested size clamped componentwise into min/maxImageExtent. -/
def choose_extent (caps : VkSurfaceCapabilitiesKHR) (p_size : Vec2u) : Vec2u :=
  if caps.currentExtent.x ≠ UINT32_MAX then caps.currentExtent
  else
    ⟨cpp_clamp p_size.x caps.minImageExtent.x caps.maxImageExtent.x,
     cpp_clamp p_size.y caps.minImageExtent.y caps.maxImageExtent.y⟩

/-- Image count determination: minImageCount + 1, capped at maxImageCount
when that bound is nonzero. -/
def choose_image_count (caps : VkSurfaceCapabilitiesKHR) : Nat :=
  let image_count := caps.minImageCount + 1
  if 0 < caps.maxImageCount ∧ caps.maxImageCount < image_count then
    caps.maxImageCount
  else image_count

/-- Surface format selection loop: scan for 8-bit RGBA sRGB (select and
break), remembering the latest 8-bit BGRA sRGB seen as fallback, starting
from formats[0]. -/
def choose_format_loop : List SurfaceFormat → SurfaceFormat → SurfaceFormat
  | [], selected => selected
  | f :: rest, selected =>
    if f.format = .r8g8b8a8_unorm ∧ f.colorSpace = .srgb_nonlinear then f
    else if f.format = .b8g8r8a8_unorm ∧ f.colorSpace = .srgb_nonlinear then
      choose_format_loop rest f
    else choose_format_loop rest selected

/-- Surface format selection; the surface adequacy check guarantees the
format list is non-empty before resize runs. -/
def choose_format (formats : List SurfaceFormat) : SurfaceFormat :=
  choose_format_loop formats (formats.headD ⟨.undefined, .srgb_nonlinear⟩)

/-- Present mode selection in swapchain_resize: FIFO (vsync, guaranteed
available) unless vsync is off, in which case scan for mailbox and, when
absent, scan for immediate. -/
def choose_present_mode (p_vsync : Bool) (present_modes : List PresentMode) : PresentMode :=
  if !p_vsync then
    match present_modes.find? (fun m => decide (m = PresentMode.mailbox)) with
    | some m => m
    | none =>
      match present_modes.find? (fun m => decide (m = PresentMode.immediate)) with
      | some m => m
      | none => PresentMode.fifo
  else PresentMode.fifo

/-- Native side effects of the resize path, in program order. -/
inductive VkEvent where
  | create_swapchain : Nat → VkEvent
  | destroy_image_view : Nat → VkEvent
  | destroy_swapchain : Nat → VkEvent
  | create_image_view : Nat → VkEvent
deriving DecidableEq

/-- Recognizer for image-view destruction events. -/
def is_destroy_image_view : VkEvent → Bool
  | .destroy_image_view _ => true
  | _ => false

/-- Recognizer for image-view creation events. -/
def is_create_image_view : VkEvent → Bool
  | .create_image_view _ => true
  | _ => false

/-- VulkanRenderBackend::_swapchain_release: destroy every non-null image
view, clear the image list, destroy the swapchain handle if non-null,
clear the flag and reset image_index to UINT32_MAX. -/
def swapchain_release (sw : VulkanSwapchain) : VulkanSwapchain × List VkEvent :=
  let view_events :=
    (sw.images.filter (fun im => decide (im.vk_image_view ≠ 0))).map
      (fun im => VkEvent.destroy_image_view im.vk_image_view)
  let sc_events :=
    if sw.vk_swapchain ≠ 0 then [VkEvent.destroy_swapchain sw.vk_swapchain] else []
  ({ sw with images := [], vk_swapchain := 0, initd := false, image_index := UINT32_MAX },
   view_events ++ sc_events)

/-- The fields of VkSwapchainCreateInfoKHR the claims inspect. -/
structure VkSwapchainCreateInfoKHR where
  minImageCount : Nat
  imageFormat : VkFormat
  imageColorSpace : VkColorSpace
  imageExtent : Vec2u
  presentMode : PresentMode
  oldSwapchain : Nat
deriving DecidableEq

/-- Values produced by the native calls during one successful resize. -/
structure ResizeEnv where
  capabilities : VkSurfaceCapabilitiesKHR
  formats : List SurfaceFormat
  present_modes : List PresentMode
  new_vk_swapchain : Nat
  raw_images : List Nat
  new_views : List Nat
deriving DecidableEq

/-- Result of one resize: the updated swapchain, the creation parameters
passed to vkCreateSwapchainKHR, and the native-call trace. -/
structure ResizeResult where
  swapchain : VulkanSwapchain
  create_info : VkSwapchainCreateInfoKHR
  trace : List VkEvent
deriving DecidableEq

/-- VulkanRenderBackend::swapchain_resize, success path (the early returns
for headless mode, a null swapchain and failed native calls leave the
swapchain unchanged and are outside this model): choose extent, image
count, format and present mode; create the new native swapchain passing
the previous handle as oldSwapchain; release the previous handle and
views when the swapchain was initialized; store the new data and build a
view for every retrieved image. -/
def swapchain_resize (env : ResizeEnv) (sw : VulkanSwapchain)
    (p_size : Vec2u) (p_vsync : Bool) : ResizeResult :=
  let extent := choose_extent env.capabilities p_size
  let image_count := choose_image_count env.capabilities
  let selected_format := choose_format env.formats
  let present_mode := choose_present_mode p_vsync env.present_modes
  let old_swapchain_handle := sw.vk_swapchain
  let create_info : VkSwapchainCreateInfoKHR :=
    ⟨image_count, selected_format.format, selected_format.colorSpace, extent,
     present_mode, old_swapchain_handle⟩
  let released := if sw.initd then swapchain_release sw else (sw, [])
  let new_images :=
    (env.raw_images.zip env.new_views).map
      (fun p => (⟨p.1, p.2, extent, selected_format.format⟩ : VulkanImage))
  let sw2 :=
    { released.1 with
      vk_swapchain := env.new_vk_swapchain
      format := selected_format.format
      color_space := selected_format.colorSpace
      extent := extent
      images := new_images
      initd := true }
  ⟨sw2, create_info,
   VkEvent.create_swapchain old_swapchain_handle ::
     (released.2 ++ new_images.map (fun im => VkEvent.create_image_view im.vk_image))⟩

/-- VulkanRenderBackend::swapchain_get_extent: reads swapchain->extent
(the memcpy is the identity under the asserted layout equality of Vec2u
and VkExtent2D). -/
def swapchain_get_extent (sw : VulkanSwapchain) : Vec2u :=
  sw.extent

/-- Formalisation of the claim's words for C3: with vsync off the mode is
mailbox if the surface reports it supported, otherwise immediate. -/
def spec_present_mode_no_vsync (present_modes : List PresentMode) : PresentMode :=
  if PresentMode.mailbox ∈ present_modes then PresentMode.mailbox
  else PresentMode.immediate

/-- Counterexample for C3 as stated: a surface reporting only FIFO (the
one mode the native API guarantees) with vsync off keeps FIFO, while the
claim requires immediate. -/
theorem choose_present_mode_counterexample :
    choose_present_mode false [PresentMode.fifo] = PresentMode.fifo ∧
    spec_present_mode_no_vsync [PresentMode.fifo] = PresentMode.immediate ∧
    PresentMode.fifo ≠ PresentMode.immediate := by
  refine ⟨rfl, by decide, by decide⟩

theorem find_eq_mem_ite (modes : List PresentMode) (target : PresentMode) :
    modes.find? (fun m => decide (m = target)) =
      (if target ∈ modes then some target else none) := by
  induction modes with
  | nil => simp
  | cons m rest ih =>
    by_cases hm : m = target
    · subst hm
      simp [List.find?]
    · have hm' : ¬ target = m := fun h => hm h.symm
      simp [List.find?, hm, ih, hm']

/-- C3 amended: every resize passes choose_present_mode's choice to
swapchain creation; vsync selects FIFO; without vsync the choice is
mailbox when the surface reports it, otherwise immediate when the surface
reports it, otherwise FIFO. -/
theorem present_mode_selection_amended (env : ResizeEnv) (sw : VulkanSwapchain)
    (p_size : Vec2u) (p_vsync : Bool) :
    (swapchain_resize env sw p_size p_vsync).create_info.presentMode =
      choose_present_mode p_vsync env.present_modes ∧
    choose_present_mode true env.present_modes = PresentMode.fifo ∧
    choose_present_mode false env.present_modes =
      (if PresentMode.mailbox ∈ env.present_modes then PresentMode.mailbox
       else if PresentMode.immediate ∈ env.present_modes then PresentMode.immediate
       else PresentMode.fifo) := by
  refine ⟨rfl, rfl, ?_⟩
  unfold choose_present_mode
  rw [find_eq_mem_ite, find_eq_mem_ite]
  by_cases h1 : PresentMode.mailbox ∈ env.present_modes
  · simp [h1]
  · by_cases h2 : PresentMode.immediate ∈ env.present_modes <;> simp [h1, h2]

/-- Formalisation of the claim's words for C4: the requested size clamped
componentwise into the surface's min/max image extents. -/
def spec_clamped_extent (caps : VkSurfaceCapabilitiesKHR) (p_size : Vec2u) : Vec2u :=
  ⟨cpp_clamp p_size.x caps.minImageExtent.x caps.maxImageExtent.x,
   cpp_clamp p_size.y caps.minImageExtent.y caps.maxImageExtent.y⟩

/-- Counterexample for C4 as stated: a surface pinning currentExtent to
800x600 makes resize ignore the requested 1920x1080 even though that
request lies inside the min/max range, so the reported extent is not the
clamped request. -/
theorem swapchain_resize_extent_counterexample :
    swapchain_get_extent (swapchain_resize
      ⟨⟨⟨800, 600⟩, ⟨1, 1⟩, ⟨4096, 4096⟩, 2, 8⟩,
       [⟨.r8g8b8a8_unorm, .srgb_nonlinear⟩], [.fifo], 2, [10, 11, 12], [20, 21, 22]⟩
      ⟨1, .r8g8b8a8_unorm, .srgb_nonlinear, ⟨800, 600⟩,
       [⟨5, 6, ⟨800, 600⟩, .r8g8b8a8_unorm⟩], 0, true⟩
      ⟨1920, 1080⟩ true).swapchain = ⟨800, 600⟩ ∧
    spec_clamped_extent ⟨⟨800, 600⟩, ⟨1, 1⟩, ⟨4096, 4096⟩, 2, 8⟩ ⟨1920, 1080⟩ =
      ⟨1920, 1080⟩ ∧
    (⟨800, 600⟩ : Vec2u) ≠ ⟨1920, 1080⟩ := by
  refine ⟨by decide, by decide, by decide⟩

/-- C4 amended: immediately after a successful resize,
swapchain_get_extent reports the surface-pinned currentExtent when the
surface fixes one (width different from UINT32_MAX), and otherwise the
requested size clamped into the surface's min/max image extents. -/
theorem swapchain_resize_extent_amended (env : ResizeEnv) (sw : VulkanSwapchain)
    (p_size : Vec2u) (p_vsync : Bool) :
    swapchain_get_extent (swapchain_resize env sw p_size p_vsync).swapchain =
      (if env.capabilities.currentExtent.x = UINT32_MAX then
        spec_clamped_extent env.capabilities p_size
      else env.capabilities.currentExtent) := by
  by_cases hc : env.capabilities.currentExtent.x = UINT32_MAX <;>
    by_cases h : sw.initd <;>
      simp [swapchain_resize, swapchain_get_extent, choose_extent,
        spec_clamped_extent, swapchain_release, hc, h]

/-- In a trace, every image-view destruction occurs strictly before every
image-view creation. -/
def destroys_precede_creates (tr : List VkEvent) : Prop :=
  ∀ (i j : Nat) (hi : i < tr.length) (hj : j < tr.length),
    is_destroy_image_view (tr.get ⟨i, hi⟩) = true →
    is_create_image_view (tr.get ⟨j, hj⟩) = true → i < j

theorem destroy_before_create_of_split (A B : List VkEvent)
    (hA : ∀ e ∈ A, is_create_image_view e = false)
    (hB : ∀ e ∈ B, is_destroy_image_view e = false) :
    destroys_precede_creates (A ++ B) := by
  intro i j hi hj hdi hcj
  have hiA : i < A.length := by
    by_contra hlt
    push_neg at hlt
    have hib : i - A.length < B.length := by
      have := hi
      rw [List.length_append] at this
      omega
    have hgetB : (A ++ B).get ⟨i, hi⟩ = B.get ⟨i - A.length, hib⟩ := by
      rw [List.get_append_right]
      omega
    have hmem : (A ++ B).get ⟨i, hi⟩ ∈ B := by
      rw [hgetB]
      exact List.get_mem B _ _
    rw [hB _ hmem] at hdi
    exact Bool.false_ne_true hdi
  have hjB : A.length ≤ j := by
    by_contra hlt
    push_neg at hlt
    have hgetA : (A ++ B).get ⟨j, hj⟩ = A.get ⟨j, hlt⟩ := List.get_append j hlt
    have hmem : (A ++ B).get ⟨j, hj⟩ ∈ A := by
      rw [hgetA]
      exact List.get_mem A _ _
    rw [hA _ hmem] at hcj
    exact Bool.false_ne_true hcj
  omega

/-- C5: resizing an initialized swapchain passes the previous native
handle as oldSwapchain to the creation of the new swapchain (the creation
call is the first native action of the resize), and every image-view
destruction (all of which target the previous image set) occurs in the
trace strictly before every image-view creation for the new images. -/
theorem swapchain_resize_old_views_destroyed_first (env : ResizeEnv)
    (sw : VulkanSwapchain) (p_size : Vec2u) (p_vsync : Bool)
    (hinit : sw.initd = true) :
    (swapchain_resize env sw p_size p_vsync).trace.head? =
      some (VkEvent.create_swapchain sw.vk_swapchain) ∧
    (swapchain_resize env sw p_size p_vsync).create_info.oldSwapchain =
      sw.vk_swapchain ∧
    destroys_precede_creates (swapchain_resize env sw p_size p_vsync).trace := by
  refine ⟨rfl, rfl, ?_⟩
  have htr : (swapchain_resize env sw p_size p_vsync).trace =
      (VkEvent.create_swapchain sw.vk_swapchain :: (swapchain_release sw).2) ++
        ((env.raw_images.zip env.new_views).map
          (fun p => (⟨p.1, p.2, choose_extent env.capabilities p_size,
            (choose_format env.formats).format⟩ : VulkanImage))).map
          (fun im => VkEvent.create_image_view im.vk_image) := by
    simp [swapchain_resize, hinit]
  have hA : ∀ e ∈ VkEvent.create_swapchain sw.vk_swapchain :: (swapchain_release sw).2,
      is_create_image_view e = false := by
    intro e he
    rcases List.mem_cons.mp he with h0 | hrel
    · rw [h0]; rfl
    · unfold swapchain_release at hrel
      simp only at hrel
      rcases List.mem_append.mp hrel with hv | hs
      · rcases List.mem_map.mp hv with ⟨im, _, him⟩
        rw [← him]; rfl
      · by_cases hz : sw.vk_swapchain ≠ 0
        · simp [hz] at hs
          rw [hs]; rfl
        · simp [hz] at hs
  have hB : ∀ e ∈ ((env.raw_images.zip env.new_views).map
      (fun p => (⟨p.1, p.2, choose_extent env.capabilities p_size,
        (choose_format env.formats).format⟩ : VulkanImage))).map
      (fun im => VkEvent.create_image_view im.vk_image),
      is_destroy_image_view e = false := by
    intro e he
    rcases List.mem_map.mp he with ⟨im, _, him⟩
    rw [← him]; rfl
  rw [htr]
  exact destroy_before_create_of_split
    (VkEvent.create_swapchain sw.vk_swapchain :: (swapchain_release sw).2) _
    hA hB

/-- Witness for C5 at a concrete resize of an initialized swapchain with
native handle 7: the creation of the new swapchain receives 7 as the old
handle before any other native action. -/
theorem swapchain_resize_old_views_destroyed_first_witness :
    (swapchain_resize
      ⟨⟨⟨UINT32_MAX, 600⟩, ⟨1, 1⟩, ⟨4096, 4096⟩, 2, 0⟩,
       [⟨.r8g8b8a8_unorm, .srgb_nonlinear⟩], [.fifo, .mailbox], 9, [10, 11], [20, 21]⟩
      ⟨7, .r8g8b8a8_unorm, .srgb_nonlinear, ⟨800, 600⟩,
       [⟨5, 6, ⟨800, 600⟩, .r8g8b8a8_unorm⟩], 0, true⟩
      ⟨1024, 768⟩ false).trace.head? = some (VkEvent.create_swapchain 7) :=
  (swapchain_resize_old_views_destroyed_first _ _ _ _ rfl).1

/-! ## Device selection and queue families (claims C1 and C2)

VulkanRenderBackend::_find_queue_families, _rate_device_suitability,
_check_device_extension_support and the selection logic of the
constructor (vk_backend.cpp).  A physical device is modelled by the data
those functions query from it; the surface handle is a Nat with 0 for
VK_NULL_HANDLE. -/

/-- One VkQueueFamilyProperties entry, together with the answer
vkGetPhysicalDeviceSurfaceSupportKHR gives for this family and the
candidate surface. -/
structure QueueFamily where
  graphics : Bool
  transfer : Bool
  compute : Bool
  present_support : Bool
deriving DecidableEq

/-- RenderBackendCreateInfo.required_features, as the three feature bits
of glgpu/backend.h. -/
structure RenderBackendFeatureFlags where
  swapchain : Bool
  ensure_surface_support : Bool
  distinct_compute_queue : Bool
deriving DecidableEq

/-- QueueFamilyIndices (vk_backend.h). -/
structure QueueFamilyIndices where
  graphics_family : Option Nat
  present_family : Option Nat
  transfer_family : Option Nat
  compute_family : Option Nat
deriving DecidableEq

/-- QueueFamilyIndices::is_complete. -/
def is_complete (ind : QueueFamilyIndices)
    (p_surface_support p_distinct_compute_queue : Bool) : Bool :=
  ind.graphics_family.isSome && ind.transfer_family.isSome &&
    (if p_surface_support then ind.present_family.isSome else true) &&
    (if p_distinct_compute_queue then ind.compute_family.isSome else true)

/-- The loop body of _find_queue_families applied to one family at index
i: graphics takes any graphics-capable family (overwriting), transfer only
the first transfer-capable one, compute any eligible family (restricted to
non-graphics families when a distinct compute queue is required), present
the latest family presenting to the surface when surface support is
requested and a surface exists. -/
def find_queue_families_step (needs_surface distinct_compute : Bool)
    (p_surface : Nat) (i : Nat) (f : QueueFamily)
    (ind : QueueFamilyIndices) : QueueFamilyIndices :=
  { graphics_family := if f.graphics then some i else ind.graphics_family
    transfer_family :=
      if f.transfer && ind.transfer_family.isNone then some i else ind.transfer_family
    compute_family :=
      if f.compute && (!distinct_compute || (distinct_compute && !f.graphics)) then
        some i
      else ind.compute_family
    present_family :=
      if needs_surface && (p_surface != 0) && f.present_support then some i
      else ind.present_family }

/-- The loop of _find_queue_families, carrying the running index. -/
def find_queue_families_loop (needs_surface distinct_compute : Bool)
    (p_surface : Nat) : Nat → List QueueFamily → QueueFamilyIndices → QueueFamilyIndices
  | _, [], ind => ind
  | i, f :: rest, ind =>
    find_queue_families_loop needs_surface distinct_compute p_surface (i + 1) rest
      (find_queue_families_step needs_surface distinct_compute p_surface i f ind)

/-- VulkanRenderBackend::_find_queue_families. -/
def find_queue_families (queue_families : List QueueFamily)
    (p_flags : RenderBackendFeatureFlags) (p_surface : Nat) : QueueFamilyIndices :=
  find_queue_families_loop p_flags.ensure_surface_support
    p_flags.distinct_compute_queue p_surface 0 queue_families
    ⟨none, none, none, none⟩

/-- Index of the first family satisfying a predicate. -/
def first_match_idx (p : QueueFamily → Bool) : List QueueFamily → Option Nat
  | [] => none
  | f :: rest => if p f then some 0 else (first_match_idx p rest).map (· + 1)

/-- Index of the last family satisfying a predicate. -/
def last_match_idx (p : QueueFamily → Bool) : List QueueFamily → Option Nat
  | [] => none
  | f :: rest =>
    match last_match_idx p rest with
    | some k => some (k + 1)
    | none => if p f then some 0 else none

/-- Shift a relative match index by the running loop index, with a default
for no match. -/
def shift_or (o : Option Nat) (i : Nat) (d : Option Nat) : Option Nat :=
  match o with
  | some k => some (i + k)
  | none => d

theorem first_match_idx_sound (p : QueueFamily → Bool) :
    ∀ (l : List QueueFamily) (k : Nat), first_match_idx p l = some k →
      ∃ h : k < l.length, p (l.get ⟨k, h⟩) = true
  | [], k, hk => by simp [first_match_idx] at hk
  | f :: rest, k, hk => by
    by_cases hp : p f = true
    · simp [first_match_idx, hp] at hk
      subst hk
      exact ⟨by simp, hp⟩
    · simp [first_match_idx, hp] at hk
      obtain ⟨k0, hk0, hkk⟩ := hk
      obtain ⟨hlt, hget⟩ := first_match_idx_sound p rest k0 hk0
      refine ⟨by simp; omega, ?_⟩
      have : k = k0 + 1 := hkk.symm
      subst this
      simpa using hget

theorem last_match_idx_sound (p : QueueFamily → Bool) :
    ∀ (l : List QueueFamily) (k : Nat), last_match_idx p l = some k →
      ∃ h : k < l.length, p (l.get ⟨k, h⟩) = true
  | [], k, hk => by simp [last_match_idx] at hk
  | f :: rest, k, hk => by
    cases hr : last_match_idx p rest with
    | some k0 =>
      rw [last_match_idx, hr] at hk
      have hkk : k = k0 + 1 := by
        simpa using hk.symm
      subst hkk
      obtain ⟨hlt, hget⟩ := last_match_idx_sound p rest k0 hr
      refine ⟨by simp; omega, ?_⟩
      simpa using hget
    | none =>
      rw [last_match_idx, hr] at hk
      by_cases hp : p f = true
      · simp [hp] at hk
        subst hk
        exact ⟨by simp, hp⟩
      · simp [hp] at hk

theorem find_queue_families_loop_graphics (ns dc : Bool) (ps : Nat)
    (fams : List QueueFamily) :
    ∀ (i : Nat) (ind : QueueFamilyIndices),
      (find_queue_families_loop ns dc ps i fams ind).graphics_family =
        shift_or (last_match_idx (fun f => f.graphics) fams) i ind.graphics_family := by
  induction fams with
  | nil => intro i ind; rfl
  | cons f rest ih =>
    intro i ind
    simp only [find_queue_families_loop]
    rw [ih]
    cases hg : last_match_idx (fun f => f.graphics) rest with
    | some k =>
      simp [last_match_idx, hg, shift_or]
      omega
    | none =>
      cases hfg : f.graphics <;>
        simp [last_match_idx, hg, shift_or, find_queue_families_step, hfg]

theorem find_queue_families_loop_transfer (ns dc : Bool) (ps : Nat)
    (fams : List QueueFamily) :
    ∀ (i : Nat) (ind : QueueFamilyIndices),
      (find_queue_families_loop ns dc ps i fams ind).transfer_family =
        (match ind.transfer_family with
         | some v => some v
         | none => shift_or (first_match_idx (fun f => f.transfer) fams) i none) := by
  induction fams with
  | nil =>
    intro i ind
    cases ht : ind.transfer_family <;>
      simp [find_queue_families_loop, first_match_idx, shift_or, ht]
  | cons f rest ih =>
    intro i ind
    simp only [find_queue_families_loop]
    rw [ih]
    cases ht : ind.transfer_family with
    | some v =>
      simp [find_queue_families_step, ht]
    | none =>
      cases hft : f.transfer with
      | true =>
        simp [find_queue_families_step, ht, hft, first_match_idx, shift_or]
      | false =>
        simp only [find_queue_families_step, ht, hft]
        cases hf : first_match_idx (fun f => f.transfer) rest <;>
          simp [first_match_idx, hft, hf, shift_or] <;> omega

theorem find_queue_families_loop_compute (ns dc : Bool) (ps : Nat)
    (fams : List QueueFamily) :
    ∀ (i : Nat) (ind : QueueFamilyIndices),
      (find_queue_families_loop ns dc ps i fams ind).compute_family =
        shift_or
          (last_match_idx
            (fun f => f.compute && (!dc || (dc && !f.graphics))) fams) i
          ind.compute_family := by
  induction fams with
  | nil => intro i ind; rfl
  | cons f rest ih =>
    intro i ind
    simp only [find_queue_families_loop]
    rw [ih]
    cases hg : last_match_idx (fun f => f.compute && (!dc || (dc && !f.graphics))) rest with
    | some k =>
      simp [last_match_idx, hg, shift_or]
      omega
    | none =>
      cases hfc : (f.compute && (!dc || (dc && !f.graphics))) <;>
        simp [last_match_idx, hg, shift_or, find_queue_families_step, hfc]

theorem find_queue_families_loop_present (ns dc : Bool) (ps : Nat)
    (fams : List QueueFamily) :
    ∀ (i : Nat) (ind : QueueFamilyIndices),
      (find_queue_families_loop ns dc ps i fams ind).present_family =
        (if ns && (ps != 0) then
          shift_or (last_match_idx (fun f => f.present_support) fams) i
            ind.present_family
        else ind.present_family) := by
  induction fams with
  | nil =>
    intro i ind
    cases hc : (ns && (ps != 0)) <;> simp [find_queue_families_loop, last_match_idx, shift_or, hc]
  | cons f rest ih =>
    intro i ind
    simp only [find_queue_families_loop]
    rw [ih]
    cases hc : (ns && (ps != 0)) with
    | false => simp [find_queue_families_step, hc]
    | true =>
      cases hg : last_match_idx (fun f => f.present_support) rest with
      | some k =>
        simp [last_match_idx, hg, shift_or, hc]
        omega
      | none =>
        cases hfp : f.present_support <;>
          simp [last_match_idx, hg, shift_or, find_queue_families_step, hfp, hc]

/-- Counterexample for C2 as stated: with families
0 = {graphics, transfer, compute} and 1 = {transfer only}, a transfer
family distinct from the graphics family exists (index 1), yet
_find_queue_families assigns transfer_family = graphics_family = 0 — the
loop keeps the first transfer-capable family with no distinctness
preference. -/
theorem find_queue_families_transfer_counterexample :
    (find_queue_families
      [⟨true, true, true, false⟩, ⟨false, true, false, false⟩]
      ⟨false, false, false⟩ 0).transfer_family = some 0 ∧
    (find_queue_families
      [⟨true, true, true, false⟩, ⟨false, true, false, false⟩]
      ⟨false, false, false⟩ 0).graphics_family = some 0 ∧
    (⟨false, true, false, false⟩ : QueueFamily).transfer = true := by
  refine ⟨rfl, rfl, rfl⟩

/-- C2 amended: _find_queue_families assigns the graphics family to the
last graphics-capable family; the transfer family to the first
transfer-capable family, with no preference for one distinct from
graphics; the compute family to the last compute-capable family, further
restricted to families without graphics exactly when a distinct compute
queue is requested (no graphics fallback — if none qualifies the index
stays unassigned and the completeness check excludes the device); and the
present family to the last family presenting to the surface, only when
surface support is requested and a surface exists, otherwise unassigned
(again with no fallback to the graphics family). -/
theorem find_queue_families_characterization (queue_families : List QueueFamily)
    (p_flags : RenderBackendFeatureFlags) (p_surface : Nat) :
    (find_queue_families queue_families p_flags p_surface).graphics_family =
      last_match_idx (fun f => f.graphics) queue_families ∧
    (find_queue_families queue_families p_flags p_surface).transfer_family =
      first_match_idx (fun f => f.transfer) queue_families ∧
    (find_queue_families queue_families p_flags p_surface).compute_family =
      last_match_idx
        (fun f => f.compute &&
          (!p_flags.distinct_compute_queue ||
            (p_flags.distinct_compute_queue && !f.graphics))) queue_families ∧
    (find_queue_families queue_families p_flags p_surface).present_family =
      (if p_flags.ensure_surface_support && (p_surface != 0) then
        last_match_idx (fun f => f.present_support) queue_families
      else none) := by
  unfold find_queue_families
  refine ⟨?_, ?_, ?_, ?_⟩
  · rw [find_queue_families_loop_graphics]
    cases h : last_match_idx (fun f => f.graphics) queue_families <;> simp [shift_or, h]
  · rw [find_queue_families_loop_transfer]
    cases h : first_match_idx (fun f => f.transfer) queue_families <;> simp [shift_or, h]
  · rw [find_queue_families_loop_compute]
    cases h : last_match_idx (fun f => f.compute &&
        (!p_flags.distinct_compute_queue ||
          (p_flags.distinct_compute_queue && !f.graphics))) queue_families <;>
      simp [shift_or, h]
  · rw [find_queue_families_loop_present]
    cases hc : (p_flags.ensure_surface_support && (p_surface != 0)) <;> simp [hc]
    cases h : last_match_idx (fun f => f.present_support) queue_families <;>
      simp [shift_or, h]

/-- VkPhysicalDeviceType, restricted to the value the scoring inspects
plus representatives of the others. -/
inductive PhysicalDeviceType where
  | discrete_gpu : PhysicalDeviceType
  | integrated_gpu : PhysicalDeviceType
  | virtual_gpu : PhysicalDeviceType
  | cpu : PhysicalDeviceType
  | other : PhysicalDeviceType
deriving DecidableEq

/-- One enumerated physical device, modelled by the data the selection
logic queries from it: its extension list, queue families (with per-family
present support for the candidate surface), the feature bits the rating
checks (Vulkan 1.3 dynamicRendering and synchronization2, Vulkan 1.2
bufferDeviceAddress, core geometryShader), its device type and
maxImageDimension2D limit, and the surface formats and present modes it
reports for the candidate surface. -/
structure PhysicalDevice where
  extensions : List String
  queue_families : List QueueFamily
  dynamic_rendering : Bool
  synchronization2 : Bool
  buffer_device_address : Bool
  geometry_shader : Bool
  device_type : PhysicalDeviceType
  max_image_dimension_2d : Nat
  formats : List SurfaceFormat
  present_modes : List PresentMode
deriving DecidableEq

/-- VulkanRenderBackend::_check_device_extension_support: the required
set minus the available extensions must be empty. -/
def check_device_extension_support (available : List String)
    (p_extensions : List String) : Bool :=
  (p_extensions.filter (fun e => !(available.contains e))).isEmpty

/-- VulkanRenderBackend::_rate_device_suitability: zero when a required
extension is missing, when a requested swapchain has no formats or present
modes on the provided surface, or when a required feature
(dynamicRendering, synchronization2, bufferDeviceAddress, geometryShader)
is absent; otherwise 1000 for a discrete GPU plus maxImageDimension2D. -/
def rate_device_suitability (dev : PhysicalDevice)
    (p_required_extensions : List String)
    (p_required_features : RenderBackendFeatureFlags) (p_surface : Nat) : Nat :=
  if !(check_device_extension_support dev.extensions p_required_extensions) then 0
  else
    let swapchain_adequate :=
      if p_required_features.swapchain then
        if p_surface != 0 then
          !dev.formats.isEmpty && !dev.present_modes.isEmpty
        else true
      else true
    if !swapchain_adequate then 0
    else if !(dev.dynamic_rendering && dev.synchronization2 &&
        dev.buffer_device_address && dev.geometry_shader) then 0
    else
      (if dev.device_type = PhysicalDeviceType.discrete_gpu then 1000 else 0) +
        dev.max_image_dimension_2d

/-- DEVICE_EXTENSIONS_REQUIRED from vk_backend.cpp. -/
def DEVICE_EXTENSIONS_REQUIRED : List String :=
  ["VK_KHR_dynamic_rendering"]

/-- The extension list the constructor rates devices against: the base
required extensions plus the swapchain extension when swapchain or
surface support is requested. -/
def required_extensions_list (p_flags : RenderBackendFeatureFlags) : List String :=
  DEVICE_EXTENSIONS_REQUIRED ++
    (if p_flags.swapchain || p_flags.ensure_surface_support then
      ["VK_KHR_swapchain"]
    else [])

/-- The candidate multimap the constructor builds, in insertion order:
devices whose queue family indices pass is_complete, paired with their
score. -/
def build_candidates (devices : List PhysicalDevice)
    (p_flags : RenderBackendFeatureFlags) (p_surface : Nat) :
    List (Nat × PhysicalDevice) :=
  devices.filterMap (fun dev =>
    if is_complete (find_queue_families dev.queue_families p_flags p_surface)
        p_flags.ensure_surface_support p_flags.distinct_compute_queue then
      some (rate_device_suitability dev (required_extensions_list p_flags)
        p_flags p_surface, dev)
    else none)

/-- candidates.rbegin() of the score-keyed std::multimap: the last
inserted entry among those with the maximal score, or none when the
multimap is empty (in which case the C++ dereference of rbegin() is
undefined behavior). -/
def multimap_rbegin (candidates : List (Nat × PhysicalDevice)) :
    Option (Nat × PhysicalDevice) :=
  candidates.foldl
    (fun acc c =>
      match acc with
      | none => some c
      | some best => if best.1 ≤ c.1 then some c else some best)
    none

/-- Outcome of the constructor's device-selection step: a selected device,
the deterministic "Failed to find a suitable GPU!" assertion when the best
score is not positive, or undefined behavior when the candidate multimap
is empty and rbegin() is dereferenced. -/
inductive SelectOutcome where
  | selected : Nat → PhysicalDevice → SelectOutcome
  | fail_no_suitable : SelectOutcome
  | undefined_rbegin : SelectOutcome
deriving DecidableEq

/-- The constructor's selection step (vk_backend.cpp lines 164-190). -/
def select_physical_device (devices : List PhysicalDevice)
    (p_flags : RenderBackendFeatureFlags) (p_surface : Nat) : SelectOutcome :=
  match multimap_rbegin (build_candidates devices p_flags p_surface) with
  | none => .undefined_rbegin
  | some c => if 0 < c.1 then .selected c.1 c.2 else .fail_no_suitable

/-- A fully capable device used as the base of the C1 test inputs. -/
def dev_ok : PhysicalDevice :=
  ⟨["VK_KHR_dynamic_rendering", "VK_KHR_swapchain"],
   [⟨true, true, true, true⟩], true, true, true, true,
   .discrete_gpu, 16384, [⟨.r8g8b8a8_unorm, .srgb_nonlinear⟩], [.fifo]⟩

/-- A device (e.g. a video-only accelerator) whose sole queue family has
no capability bits: it fails queue-family completeness and never enters
the candidate multimap. -/
def dev_no_queue : PhysicalDevice :=
  { dev_ok with queue_families := [⟨false, false, false, false⟩] }

/-- A device missing the required dynamic-rendering extension. -/
def dev_missing_ext : PhysicalDevice :=
  { dev_ok with extensions := [] }

/-- A device missing the required dynamicRendering feature. -/
def dev_missing_feature : PhysicalDevice :=
  { dev_ok with dynamic_rendering := false }

/-- A device reporting no surface formats for the candidate surface. -/
def dev_bad_swapchain : PhysicalDevice :=
  { dev_ok with formats := [] }

/-- C1: devices failing a hard requirement (missing extension, inadequate
swapchain support, missing feature) score zero, and when the only
candidate scores zero the selection fails deterministically via the
assertion; but on the failing input — every enumerated device failing
queue-family completeness, here a single device with a capability-less
queue family — the candidate multimap is empty and the code dereferences
rbegin() of an empty multimap: undefined behavior rather than the
deterministic failure the claim requires. -/
theorem device_selection_failing_input :
    select_physical_device [dev_no_queue] ⟨false, false, false⟩ 0 =
      SelectOutcome.undefined_rbegin ∧
    rate_device_suitability dev_missing_ext
      (required_extensions_list ⟨false, false, false⟩) ⟨false, false, false⟩ 0 = 0 ∧
    rate_device_suitability dev_missing_feature
      (required_extensions_list ⟨false, false, false⟩) ⟨false, false, false⟩ 0 = 0 ∧
    rate_device_suitability dev_bad_swapchain
      (required_extensions_list ⟨true, false, false⟩) ⟨true, false, false⟩ 5 = 0 ∧
    select_physical_device [dev_missing_feature] ⟨false, false, false⟩ 0 =
      SelectOutcome.fail_no_suitable ∧
    rate_device_suitability dev_ok
      (required_extensions_list ⟨false, false, false⟩) ⟨false, false, false⟩ 0 =
      1000 + 16384 ∧
    select_physical_device [dev_missing_feature, dev_ok] ⟨false, false, false⟩ 0 =
      SelectOutcome.selected (1000 + 16384) dev_ok := by
  refine ⟨rfl, rfl, rfl, rfl, rfl, rfl, rfl⟩

end gl
